import Mathlib

/-!
Verification of the credential-configuration module of the `uhc` command-line
client (`pkg/config/config.go`): the `Config` record, the armed-check policy
(`Armed`, `tokenExpiry`) and the file-backed record store
(`Load`, `Save`, `Remove`, `Location`).

Modelling conventions, taken from the Go source:

* Times and durations are integers counting nanoseconds, matching Go
  `time.Time` (instants) and `time.Duration` (nanosecond counts).  `Armed`
  calls `time.Now()` once; we expose that instant as an explicit `now`
  parameter, as the spec allows (injectable time source).  Wall-clock
  instants produced by `time.Now()` are never before the Unix epoch, so
  theorems about concrete boundary times may assume `0 ≤ now`.
* The third-party JWT decoder (`jwt.Parser.ParseUnverified`) is not part of
  this repository; the armed check only consumes the claims map it produces
  (or its error).  We therefore abstract it as a parameter
  `decode : String → Except String Claims` and quantify every theorem over
  it.  The `exp` claim is a JSON number held as a Go `float64`; the program
  only compares it with `0` and converts it with `int64(exp)` to whole epoch
  seconds, so we model numeric claim values as integers.
* The Go type assertion `token.Claims.(jwt.MapClaims)` cannot fail, because
  `ParseUnverified` is invoked with a `jwt.MapClaims{}` destination and
  stores that very value in `token.Claims`; the corresponding dead error
  branch is not modelled.
* The record store works on a single JSON file.  We model the file system as
  a map from paths to file contents, and file contents at the level of the
  decoded top-level JSON object (an association list of fields), since
  `Save` always writes such an object and `Load` parses one back;
  `encoding/json` round-trips a value through its printed text unchanged.
-/

namespace Uhc

/-- Config mirrors the Go struct `config.Config`: the credential record
persisted by the client.  Field order and JSON key names follow the source;
the Go zero value (all fields empty) is the default instance. -/
structure Config where
  accessToken : String := ""
  clientID : String := ""
  clientSecret : String := ""
  insecure : Bool := false
  password : String := ""
  refreshToken : String := ""
  scopes : List String := []
  token : String := ""
  tokenURL : String := ""
  url : String := ""
  user : String := ""
deriving DecidableEq, Repr

/-- ClaimValue models a JSON value stored in a decoded claims map.  Numbers
are the integral `exp` values the program compares and truncates; the other
constructors stand for the non-numeric JSON shapes a claim may have. -/
inductive ClaimValue where
  | num (x : Int)
  | str (s : String)
  | boolV (b : Bool)
  | null
deriving DecidableEq, Repr

/-- Claims is the decoded claims object of a bearer token
(`jwt.MapClaims`), read through association-list lookup. -/
abbrev Claims := List (String × ClaimValue)

/-- TokenError enumerates the failures `tokenExpiry` can return. -/
inductive TokenError where
  | parseError (msg : String)
  | missingExpClaim
  | invalidExpType (got : ClaimValue)
deriving DecidableEq, Repr

/-- goTypeName renders the Go dynamic type of a claim value, as the `%T`
verb prints it for the values `encoding/json` decodes into an interface. -/
def goTypeName : ClaimValue → String
  | .num _ => "float64"
  | .str _ => "string"
  | .boolV _ => "bool"
  | .null => "<nil>"

/-- TokenError.message is the text of each error, as built by the
`fmt.Errorf` calls in `tokenExpiry`. -/
def TokenError.message : TokenError → String
  | .parseError m => "cant parse token: " ++ m
  | .missingExpClaim => "token doesn\x27t contain the \x27exp\x27 claim"
  | .invalidExpType got => "expected floating point \x27exp\x27 but got " ++ goTypeName got

/-- second is `time.Second` in nanoseconds. -/
def second : Int := 1000000000

/-- tokenExpiry mirrors Go `tokenExpiry(text string, now time.Time)`:
decode the token, read the `exp` claim, and report `(expires, left)` where
`left = time.Unix(int64(exp), 0).Sub(now)` in nanoseconds.  `exp = 0` is the
non-expiring sentinel.  The JWT decoder is the abstract parameter
`decode`. -/
def tokenExpiry (decode : String → Except String Claims) (text : String) (now : Int) :
    Except TokenError (Bool × Int) :=
  match decode text with
  | .error e => .error (.parseError e)
  | .ok claims =>
    match claims.lookup "exp" with
    | none => .error .missingExpClaim
    | some claim =>
      match claim with
      | .num exp =>
        if exp = 0 then .ok (false, 0)
        else .ok (true, exp * second - now)
      | v => .error (.invalidExpType v)

/-- armedRefresh is the refresh-token tail of Go `Armed`: the code from the
`if cfg.RefreshToken != ""` check to the final return, reached both when the
access token is empty and when it is set but too close to expiry. -/
def armedRefresh (decode : String → Except String Claims) (cfg : Config) (now : Int) :
    Bool × Option TokenError :=
  if cfg.refreshToken ≠ "" then
    match tokenExpiry decode cfg.refreshToken now with
    | .error e => (false, some e)
    | .ok (expires, left) =>
      if expires = false ∨ left > 10 * second then (true, none) else (false, none)
  else (false, none)

/-- Armed mirrors Go `Armed(cfg *Config) (armed bool, err error)`.  The Go
early returns become nested conditionals; the pair holds the named results
`(armed, err)`, with `armed` left at its zero value `false` whenever an
error is returned. -/
def Armed (decode : String → Except String Claims) (cfg : Config) (now : Int) :
    Bool × Option TokenError :=
  if cfg.user ≠ "" ∧ cfg.password ≠ "" then (true, none)
  else if cfg.clientID ≠ "" ∧ cfg.clientSecret ≠ "" then (true, none)
  else if cfg.accessToken ≠ "" then
    match tokenExpiry decode cfg.accessToken now with
    | .error e => (false, some e)
    | .ok (expires, left) =>
      if expires = false ∨ left > 5 * second then (true, none)
      else armedRefresh decode cfg now
  else armedRefresh decode cfg now

/-- Jval models a JSON value appearing as a field of the persisted config
object: the `Config` fields are strings, one boolean and one string list. -/
inductive Jval where
  | jstr (s : String)
  | jbool (b : Bool)
  | jarr (xs : List String)
deriving DecidableEq, Repr

/-- FS models the file system the record store touches: a map from paths to
the decoded top-level JSON object stored in the file, `none` meaning the
file does not exist. -/
abbrev FS := String → Option (List (String × Jval))

/-- Location mirrors Go `Location()`: fail when `$HOME` is empty, else
return `filepath.Join(home, ".uhc.json")`. -/
def Location (home : String) : Except String String :=
  if home = "" then
    .error "can\x27t find home directory, HOME environment variable is empty"
  else .ok (home ++ "/.uhc.json")

/-- marshalConfig mirrors `json.MarshalIndent` on a `Config` at the level of
the produced JSON object: fields in struct order, each omitted when it holds
its zero value (`omitempty` on every field). -/
def marshalConfig (c : Config) : List (String × Jval) :=
  (if c.accessToken = "" then [] else [("access_token", Jval.jstr c.accessToken)]) ++
  ((if c.clientID = "" then [] else [("client_id", Jval.jstr c.clientID)]) ++
  ((if c.clientSecret = "" then [] else [("client_secret", Jval.jstr c.clientSecret)]) ++
  ((if c.insecure = true then [("insecure", Jval.jbool c.insecure)] else []) ++
  ((if c.password = "" then [] else [("password", Jval.jstr c.password)]) ++
  ((if c.refreshToken = "" then [] else [("refresh_token", Jval.jstr c.refreshToken)]) ++
  ((if c.scopes = [] then [] else [("scopes", Jval.jarr c.scopes)]) ++
  ((if c.token = "" then [] else [("token", Jval.jstr c.token)]) ++
  ((if c.tokenURL = "" then [] else [("token_url", Jval.jstr c.tokenURL)]) ++
  ((if c.url = "" then [] else [("url", Jval.jstr c.url)]) ++
  (if c.user = "" then [] else [("user", Jval.jstr c.user)]))))))))))

/-- setField applies one JSON object field to a `Config` under
`json.Unmarshal` semantics: known keys require the matching value shape,
unknown keys are ignored. -/
def setField (c : Config) (k : String) (v : Jval) : Except String Config :=
  match k with
  | "access_token" =>
    match v with
    | .jstr s => .ok { c with accessToken := s }
    | _ => .error "cannot unmarshal into field access_token"
  | "client_id" =>
    match v with
    | .jstr s => .ok { c with clientID := s }
    | _ => .error "cannot unmarshal into field client_id"
  | "client_secret" =>
    match v with
    | .jstr s => .ok { c with clientSecret := s }
    | _ => .error "cannot unmarshal into field client_secret"
  | "insecure" =>
    match v with
    | .jbool b => .ok { c with insecure := b }
    | _ => .error "cannot unmarshal into field insecure"
  | "password" =>
    match v with
    | .jstr s => .ok { c with password := s }
    | _ => .error "cannot unmarshal into field password"
  | "refresh_token" =>
    match v with
    | .jstr s => .ok { c with refreshToken := s }
    | _ => .error "cannot unmarshal into field refresh_token"
  | "scopes" =>
    match v with
    | .jarr xs => .ok { c with scopes := xs }
    | _ => .error "cannot unmarshal into field scopes"
  | "token" =>
    match v with
    | .jstr s => .ok { c with token := s }
    | _ => .error "cannot unmarshal into field token"
  | "token_url" =>
    match v with
    | .jstr s => .ok { c with tokenURL := s }
    | _ => .error "cannot unmarshal into field token_url"
  | "url" =>
    match v with
    | .jstr s => .ok { c with url := s }
    | _ => .error "cannot unmarshal into field url"
  | "user" =>
    match v with
    | .jstr s => .ok { c with user := s }
    | _ => .error "cannot unmarshal into field user"
  | _ => .ok c

/-- setFields folds a whole JSON object into a `Config`, later duplicate
keys overwriting earlier ones, as `json.Unmarshal` does. -/
def setFields (c : Config) : List (String × Jval) → Except String Config
  | [] => .ok c
  | (k, v) :: rest =>
    match setField c k v with
    | .error e => .error e
    | .ok c2 => setFields c2 rest

/-- unmarshalConfig mirrors `json.Unmarshal(data, cfg)` with `cfg` freshly
allocated (`new(Config)`, the zero value). -/
def unmarshalConfig (data : List (String × Jval)) : Except String Config :=
  setFields {} data

/-- Load mirrors Go `Load()`: resolve the location; a missing file yields
`(nil, nil)`, an existing file is read and unmarshalled. -/
def Load (home : String) (fs : FS) : Except String (Option Config) :=
  match Location home with
  | .error e => .error e
  | .ok file =>
    match fs file with
    | none => .ok none
    | some data =>
      match unmarshalConfig data with
      | .error e => .error ("can\x27t parse config file: " ++ e)
      | .ok cfg => .ok (some cfg)

/-- Save mirrors Go `Save(cfg)`: resolve the location and overwrite the file
with the marshalled record. -/
def Save (home : String) (cfg : Config) (fs : FS) : Except String FS :=
  match Location home with
  | .error e => .error e
  | .ok file => .ok (fun p => if p = file then some (marshalConfig cfg) else fs p)

/-- Remove mirrors Go `Remove()`: resolve the location; a missing file is
not an error and nothing is deleted, otherwise the file is removed. -/
def Remove (home : String) (fs : FS) : Except String FS :=
  match Location home with
  | .error e => .error e
  | .ok file =>
    match fs file with
    | none => .ok fs
    | some _ => .ok (fun p => if p = file then none else fs p)

/-- C1: for every record in which user and password are both non-empty, or
in which clientId and clientSecret are both non-empty while user or password
is empty, `Armed` returns true with no error, for every value of `now` and
for every decoder and token-field content (so even for malformed token
strings: no token is ever decoded in these cases, as the quantification over
`decode` shows). -/
theorem C1_armed_static_credentials (decode : String → Except String Claims)
    (cfg : Config) (now : Int)
    (h : (cfg.user ≠ "" ∧ cfg.password ≠ "") ∨
      ((cfg.user = "" ∨ cfg.password = "") ∧ cfg.clientID ≠ "" ∧ cfg.clientSecret ≠ "")) :
    Armed decode cfg now = (true, none) := by
  unfold Armed
  rcases h with ⟨hu, hp⟩ | ⟨_, hc, hs⟩
  · rw [if_pos ⟨hu, hp⟩]
  · by_cases h1 : cfg.user ≠ "" ∧ cfg.password ≠ ""
    · rw [if_pos h1]
    · rw [if_neg h1, if_pos ⟨hc, hs⟩]

/-- C1 witness: a record with user and password set and malformed tokens is
armed under a decoder that fails on every string. -/
theorem C1_armed_static_credentials_witness :
    Armed (fun _ => Except.error "malformed")
      { user := "u", password := "p", accessToken := "x", refreshToken := "y" } 0
      = (true, none) :=
  C1_armed_static_credentials _ _ 0 (Or.inl ⟨by simp, by simp⟩)

/-- C3: for every record that reaches the access-token step (no usable
static credential pair) with a non-empty accessToken whose expiry
evaluation fails, `Armed` propagates that error and returns armed = false,
whatever the refreshToken holds: the refresh token is never evaluated. -/
theorem C3_armed_access_error_propagates (decode : String → Except String Claims)
    (cfg : Config) (now : Int) (err : TokenError)
    (h1 : ¬(cfg.user ≠ "" ∧ cfg.password ≠ ""))
    (h2 : ¬(cfg.clientID ≠ "" ∧ cfg.clientSecret ≠ ""))
    (h3 : cfg.accessToken ≠ "")
    (h4 : tokenExpiry decode cfg.accessToken now = .error err) :
    Armed decode cfg now = (false, some err) := by
  unfold Armed
  rw [if_neg h1, if_neg h2, if_pos h3, h4]

/-- C3 witness: a malformed access token masks a refresh token that would
by itself arm the record (its exp claim is the non-expiring zero). -/
theorem C3_armed_access_error_propagates_witness :
    Armed (fun s => if s = "bad" then Except.error "oops"
        else Except.ok [("exp", ClaimValue.num 0)])
      { accessToken := "bad", refreshToken := "good" } 0
      = (false, some (TokenError.parseError "oops")) :=
  C3_armed_access_error_propagates _ _ 0 _ (by simp) (by simp) (by simp)
    (by simp [tokenExpiry])

/-- C10: for every record, decoder and now, `Armed` never returns
armed = true together with an error; and the all-empty record yields
armed = false with no error. -/
theorem C10_armed_never_true_with_error (decode : String → Except String Claims)
    (cfg : Config) (now : Int) :
    ((Armed decode cfg now).1 = false ∨ (Armed decode cfg now).2 = none) ∧
    Armed decode ({} : Config) now = (false, none) := by
  constructor
  · unfold Armed armedRefresh
    repeat' split
    all_goals simp
  · simp [Armed, armedRefresh]

/-- C2: on a record whose only credential is a decodable accessToken,
`Armed` returns true when the exp instant lies 6 seconds after `now` and
false with no error when it lies 4 seconds after `now`: the access-token
threshold is strictly more than 5 seconds of remaining validity.  `now` is
the wall clock, hence not before the epoch. -/
theorem C2_armed_access_boundary (decode : String → Except String Claims)
    (tok : String) (claims : Claims) (e now : Int)
    (htok : tok ≠ "") (hdec : decode tok = .ok claims)
    (hexp : claims.lookup "exp" = some (.num e)) (hnow : 0 ≤ now) :
    (e * second - now = 6 * second →
      Armed decode { accessToken := tok } now = (true, none)) ∧
    (e * second - now = 4 * second →
      Armed decode { accessToken := tok } now = (false, none)) := by
  have hte : tokenExpiry decode tok now =
      if e = 0 then Except.ok (false, 0) else Except.ok (true, e * second - now) := by
    unfold tokenExpiry
    rw [hdec]
    dsimp only
    rw [hexp]
  refine ⟨fun h6 => ?_, fun h4 => ?_⟩
  · by_cases he : e = 0
    · rw [if_pos he] at hte
      simp [Armed, armedRefresh, hte, htok]
    · rw [if_neg he, h6] at hte
      simp [Armed, armedRefresh, hte, htok, second]
  · have he : ¬ e = 0 := by
      intro he
      rw [he] at h4
      simp only [second] at h4
      omega
    rw [if_neg he, h4] at hte
    simp [Armed, armedRefresh, hte, htok, second]

/-- C2 witness: exp six seconds ahead of `now = 0` arms the record; four
seconds ahead does not. -/
theorem C2_armed_access_boundary_witness :
    Armed (fun _ => Except.ok [("exp", ClaimValue.num 6)]) { accessToken := "t" } 0
      = (true, none) ∧
    Armed (fun _ => Except.ok [("exp", ClaimValue.num 4)]) { accessToken := "t" } 0
      = (false, none) :=
  ⟨(C2_armed_access_boundary _ "t" [("exp", ClaimValue.num 6)] 6 0 (by simp) rfl rfl
      (by simp)).1 (by decide),
   (C2_armed_access_boundary _ "t" [("exp", ClaimValue.num 4)] 4 0 (by simp) rfl rfl
      (by simp)).2 (by decide)⟩

/-- C4: a record with no static credentials, an accessToken that expires
with at most 5 seconds remaining (already-expired included), and a
refreshToken that either never expires or has more than 10 seconds
remaining, is armed with no error: a merely expired access token falls
through to the refresh-token check. -/
theorem C4_expired_access_falls_through (decode : String → Except String Claims)
    (cfg : Config) (now la lr : Int) (er : Bool)
    (hu : cfg.user = "") (_hp : cfg.password = "")
    (hci : cfg.clientID = "") (_hcs : cfg.clientSecret = "")
    (hat : cfg.accessToken ≠ "")
    (ha : tokenExpiry decode cfg.accessToken now = .ok (true, la))
    (hla : la ≤ 5 * second)
    (hrt : cfg.refreshToken ≠ "")
    (hr : tokenExpiry decode cfg.refreshToken now = .ok (er, lr))
    (hcond : er = false ∨ 10 * second < lr) :
    Armed decode cfg now = (true, none) := by
  unfold Armed armedRefresh
  rw [if_neg (by simp [hu]), if_neg (by simp [hci]), if_pos hat, ha]
  dsimp only
  rw [if_neg (not_or.mpr ⟨by simp, not_lt.mpr hla⟩), if_pos hrt, hr]
  dsimp only
  rw [if_pos hcond]

/-- C4 witness: an access token expired 100 seconds ago falls through to a
refresh token with 60 seconds left, and the record is armed. -/
theorem C4_expired_access_falls_through_witness :
    Armed (fun s => if s = "a" then Except.ok [("exp", ClaimValue.num (-100))]
        else Except.ok [("exp", ClaimValue.num 60)])
      { accessToken := "a", refreshToken := "r" } 0 = (true, none) :=
  C4_expired_access_falls_through _ _ 0 (-100 * second) (60 * second) true
    rfl rfl rfl rfl (by simp) (by simp [tokenExpiry]) (by decide) (by simp)
    (by simp [tokenExpiry]) (Or.inr (by decide))

/-- C5: on a record whose only credential is a decodable refreshToken,
`Armed` returns true when the exp instant lies 11 seconds after `now` and
false with no error when it lies 9 seconds after `now`: the refresh-token
threshold is strictly more than 10 seconds of remaining validity. -/
theorem C5_armed_refresh_boundary (decode : String → Except String Claims)
    (tok : String) (claims : Claims) (e now : Int)
    (htok : tok ≠ "") (hdec : decode tok = .ok claims)
    (hexp : claims.lookup "exp" = some (.num e)) (hnow : 0 ≤ now) :
    (e * second - now = 11 * second →
      Armed decode { refreshToken := tok } now = (true, none)) ∧
    (e * second - now = 9 * second →
      Armed decode { refreshToken := tok } now = (false, none)) := by
  have hte : tokenExpiry decode tok now =
      if e = 0 then Except.ok (false, 0) else Except.ok (true, e * second - now) := by
    unfold tokenExpiry
    rw [hdec]
    dsimp only
    rw [hexp]
  refine ⟨fun h11 => ?_, fun h9 => ?_⟩
  · by_cases he : e = 0
    · rw [if_pos he] at hte
      simp [Armed, armedRefresh, hte, htok]
    · rw [if_neg he, h11] at hte
      simp [Armed, armedRefresh, hte, htok, second]
  · have he : ¬ e = 0 := by
      intro he
      rw [he] at h9
      simp only [second] at h9
      omega
    rw [if_neg he, h9] at hte
    simp [Armed, armedRefresh, hte, htok, second]

/-- C5 witness: exp eleven seconds ahead of `now = 0` arms the record
through its refresh token; nine seconds ahead does not. -/
theorem C5_armed_refresh_boundary_witness :
    Armed (fun _ => Except.ok [("exp", ClaimValue.num 11)]) { refreshToken := "t" } 0
      = (true, none) ∧
    Armed (fun _ => Except.ok [("exp", ClaimValue.num 9)]) { refreshToken := "t" } 0
      = (false, none) :=
  ⟨(C5_armed_refresh_boundary _ "t" [("exp", ClaimValue.num 11)] 11 0 (by simp) rfl rfl
      (by simp)).1 (by decide),
   (C5_armed_refresh_boundary _ "t" [("exp", ClaimValue.num 9)] 9 0 (by simp) rfl rfl
      (by simp)).2 (by decide)⟩

/-- C6: a decodable token whose exp claim is the number zero evaluates to
expires = false with remaining = 0, and a record holding only that token,
as access or as refresh token, is armed with no error for every `now`. -/
theorem C6_zero_exp_non_expiring (decode : String → Except String Claims)
    (tok : String) (claims : Claims) (now : Int)
    (htok : tok ≠ "") (hdec : decode tok = .ok claims)
    (hexp : claims.lookup "exp" = some (.num 0)) :
    tokenExpiry decode tok now = .ok (false, 0) ∧
    Armed decode { accessToken := tok } now = (true, none) ∧
    Armed decode { refreshToken := tok } now = (true, none) := by
  have hte : tokenExpiry decode tok now = .ok (false, 0) := by
    unfold tokenExpiry
    rw [hdec]
    dsimp only
    rw [hexp]
    simp
  exact ⟨hte, by simp [Armed, armedRefresh, hte, htok], by simp [Armed, armedRefresh, hte, htok]⟩

/-- C6 witness: a zero-exp token arms the record at an arbitrary time, both
as access token and as refresh token. -/
theorem C6_zero_exp_non_expiring_witness :
    tokenExpiry (fun _ => Except.ok [("exp", ClaimValue.num 0)]) "t" 37 = .ok (false, 0) ∧
    Armed (fun _ => Except.ok [("exp", ClaimValue.num 0)]) { accessToken := "t" } 37
      = (true, none) ∧
    Armed (fun _ => Except.ok [("exp", ClaimValue.num 0)]) { refreshToken := "t" } 37
      = (true, none) :=
  C6_zero_exp_non_expiring _ "t" [("exp", ClaimValue.num 0)] 37 (by simp) rfl rfl

/-- C7: a decodable token without an exp claim makes `tokenExpiry` fail
with the missing-exp error, whose text is the one in the source, and
`Armed` on a record whose only credential is that token propagates the
error with armed = false; an exp claim of a non-numeric shape fails with
the distinct invalid-type error instead. -/
theorem C7_missing_exp_error (decode : String → Except String Claims)
    (tok : String) (claims : Claims) (now : Int)
    (htok : tok ≠ "") (hdec : decode tok = .ok claims)
    (hexp : claims.lookup "exp" = none) :
    tokenExpiry decode tok now = .error .missingExpClaim ∧
    TokenError.message .missingExpClaim = "token doesn\x27t contain the \x27exp\x27 claim" ∧
    Armed decode { accessToken := tok } now = (false, some .missingExpClaim) ∧
    (∀ (tok2 : String) (claims2 : Claims) (v : ClaimValue),
      decode tok2 = .ok claims2 → claims2.lookup "exp" = some v →
      (∀ x : Int, v ≠ .num x) →
      tokenExpiry decode tok2 now = .error (.invalidExpType v) ∧
      TokenError.invalidExpType v ≠ TokenError.missingExpClaim) := by
  have hte : tokenExpiry decode tok now = .error .missingExpClaim := by
    unfold tokenExpiry
    rw [hdec]
    dsimp only
    rw [hexp]
  refine ⟨hte, rfl, by simp [Armed, armedRefresh, hte, htok], ?_⟩
  intro tok2 claims2 v hdec2 hexp2 hv
  constructor
  · unfold tokenExpiry
    rw [hdec2]
    dsimp only
    rw [hexp2]
    cases v with
    | num x => exact absurd rfl (hv x)
    | str s => rfl
    | boolV b => rfl
    | null => rfl
  · simp

/-- C7 witness: a token decoding to claims without exp propagates the
missing-exp error through `Armed`; a string-valued exp claim yields the
invalid-type error. -/
theorem C7_missing_exp_error_witness :
    Armed (fun s => if s = "m" then Except.ok [] else Except.ok [("exp", ClaimValue.str "soon")])
      { accessToken := "m" } 0 = (false, some TokenError.missingExpClaim) ∧
    tokenExpiry
      (fun s => if s = "m" then Except.ok [] else Except.ok [("exp", ClaimValue.str "soon")])
      "n" 0 = .error (TokenError.invalidExpType (ClaimValue.str "soon")) :=
  ⟨(C7_missing_exp_error _ "m" ([] : Claims) 0 (by simp) (by simp) rfl).2.2.1,
   ((C7_missing_exp_error _ "m" ([] : Claims) 0 (by simp) (by simp) rfl).2.2.2 "n"
      [("exp", ClaimValue.str "soon")] (ClaimValue.str "soon")
      (by simp) rfl (fun x => by simp)).1⟩

/-- setFields_append: folding a concatenation of field lists folds the two
parts in sequence, stopping at the first error. -/
theorem setFields_append (c : Config) (xs ys : List (String × Jval)) :
    setFields c (xs ++ ys) =
      match setFields c xs with
      | .error e => .error e
      | .ok c2 => setFields c2 ys := by
  induction xs generalizing c with
  | nil => rfl
  | cons kv rest ih =>
    obtain ⟨k, v⟩ := kv
    simp only [List.cons_append, setFields]
    cases setField c k v with
    | error e => rfl
    | ok c2 => exact ih c2

/-- seg_access: the marshalled access_token segment restores the field over
an accumulator whose field is still at its zero value. -/
theorem seg_access (acc : Config) (s : String) (h : acc.accessToken = "") :
    setFields acc (if s = "" then [] else [("access_token", Jval.jstr s)]) =
      .ok { acc with accessToken := s } := by
  split_ifs with hs
  · subst hs
    rw [← h]
    rfl
  · rfl

/-- seg_clientID: the marshalled client_id segment restores the field over
an accumulator whose field is still at its zero value. -/
theorem seg_clientID (acc : Config) (s : String) (h : acc.clientID = "") :
    setFields acc (if s = "" then [] else [("client_id", Jval.jstr s)]) =
      .ok { acc with clientID := s } := by
  split_ifs with hs
  · subst hs
    rw [← h]
    rfl
  · rfl

/-- seg_clientSecret: the marshalled client_secret segment restores the
field over an accumulator whose field is still at its zero value. -/
theorem seg_clientSecret (acc : Config) (s : String) (h : acc.clientSecret = "") :
    setFields acc (if s = "" then [] else [("client_secret", Jval.jstr s)]) =
      .ok { acc with clientSecret := s } := by
  split_ifs with hs
  · subst hs
    rw [← h]
    rfl
  · rfl

/-- seg_insecure: the marshalled insecure segment restores the field over
an accumulator whose field is still at its zero value. -/
theorem seg_insecure (acc : Config) (b : Bool) (h : acc.insecure = false) :
    setFields acc (if b = true then [("insecure", Jval.jbool b)] else []) =
      .ok { acc with insecure := b } := by
  cases b
  · rw [if_neg (by simp), ← h]
    rfl
  · rfl

/-- seg_password: the marshalled password segment restores the field over
an accumulator whose field is still at its zero value. -/
theorem seg_password (acc : Config) (s : String) (h : acc.password = "") :
    setFields acc (if s = "" then [] else [("password", Jval.jstr s)]) =
      .ok { acc with password := s } := by
  split_ifs with hs
  · subst hs
    rw [← h]
    rfl
  · rfl

/-- seg_refreshToken: the marshalled refresh_token segment restores the
field over an accumulator whose field is still at its zero value. -/
theorem seg_refreshToken (acc : Config) (s : String) (h : acc.refreshToken = "") :
    setFields acc (if s = "" then [] else [("refresh_token", Jval.jstr s)]) =
      .ok { acc with refreshToken := s } := by
  split_ifs with hs
  · subst hs
    rw [← h]
    rfl
  · rfl

/-- seg_scopes: the marshalled scopes segment restores the field over an
accumulator whose field is still at its zero value. -/
theorem seg_scopes (acc : Config) (xs : List String) (h : acc.scopes = []) :
    setFields acc (if xs = [] then [] else [("scopes", Jval.jarr xs)]) =
      .ok { acc with scopes := xs } := by
  split_ifs with hs
  · subst hs
    rw [← h]
    rfl
  · rfl

/-- seg_token: the marshalled token segment restores the field over an
accumulator whose field is still at its zero value. -/
theorem seg_token (acc : Config) (s : String) (h : acc.token = "") :
    setFields acc (if s = "" then [] else [("token", Jval.jstr s)]) =
      .ok { acc with token := s } := by
  split_ifs with hs
  · subst hs
    rw [← h]
    rfl
  · rfl

/-- seg_tokenURL: the marshalled token_url segment restores the field over
an accumulator whose field is still at its zero value. -/
theorem seg_tokenURL (acc : Config) (s : String) (h : acc.tokenURL = "") :
    setFields acc (if s = "" then [] else [("token_url", Jval.jstr s)]) =
      .ok { acc with tokenURL := s } := by
  split_ifs with hs
  · subst hs
    rw [← h]
    rfl
  · rfl

/-- seg_url: the marshalled url segment restores the field over an
accumulator whose field is still at its zero value. -/
theorem seg_url (acc : Config) (s : String) (h : acc.url = "") :
    setFields acc (if s = "" then [] else [("url", Jval.jstr s)]) =
      .ok { acc with url := s } := by
  split_ifs with hs
  · subst hs
    rw [← h]
    rfl
  · rfl

/-- seg_user: the marshalled user segment restores the field over an
accumulator whose field is still at its zero value. -/
theorem seg_user (acc : Config) (s : String) (h : acc.user = "") :
    setFields acc (if s = "" then [] else [("user", Jval.jstr s)]) =
      .ok { acc with user := s } := by
  split_ifs with hs
  · subst hs
    rw [← h]
    rfl
  · rfl

/-- setFields_marshal: unmarshalling the marshalled object of any record,
starting from the zero value, reconstructs the record exactly, whatever
subset of its fields is empty. -/
theorem setFields_marshal (c : Config) : setFields {} (marshalConfig c) = .ok c := by
  simp only [marshalConfig]
  rw [setFields_append, seg_access _ _ rfl]
  dsimp only
  rw [setFields_append, seg_clientID _ _ rfl]
  dsimp only
  rw [setFields_append, seg_clientSecret _ _ rfl]
  dsimp only
  rw [setFields_append, seg_insecure _ _ rfl]
  dsimp only
  rw [setFields_append, seg_password _ _ rfl]
  dsimp only
  rw [setFields_append, seg_refreshToken _ _ rfl]
  dsimp only
  rw [setFields_append, seg_scopes _ _ rfl]
  dsimp only
  rw [setFields_append, seg_token _ _ rfl]
  dsimp only
  rw [setFields_append, seg_tokenURL _ _ rfl]
  dsimp only
  rw [setFields_append, seg_url _ _ rfl]
  dsimp only
  rw [seg_user _ _ rfl]

/-- C8: saving any record and loading it back through the same
home-directory value, with the store otherwise undisturbed, yields the very
record, explicitly empty fields included. -/
theorem C8_save_load_roundtrip (home : String) (cfg : Config) (fs : FS)
    (hhome : home ≠ "") :
    (Save home cfg fs).bind (fun fs2 => Load home fs2) = .ok (some cfg) := by
  unfold Save Load Location
  rw [if_neg hhome]
  dsimp only [Except.bind]
  rw [if_pos rfl]
  dsimp only
  rw [unmarshalConfig, setFields_marshal]

/-- C8 witness: a record mixing empty and non-empty fields survives the
save-then-load round trip in an initially empty store. -/
theorem C8_save_load_roundtrip_witness :
    (Save "h" { user := "u", insecure := true, scopes := ["s"] } (fun _ => none)).bind
      (fun fs2 => Load "h" fs2)
      = .ok (some { user := "u", insecure := true, scopes := ["s"] }) :=
  C8_save_load_roundtrip "h" { user := "u", insecure := true, scopes := ["s"] }
    (fun _ => none) (by simp)

/-- C9: when the configuration file is absent at the resolved location,
`Load` returns no record with no error, and `Remove` returns no error and
leaves the store untouched. -/
theorem C9_missing_file_not_an_error (home : String) (fs : FS) (hhome : home ≠ "")
    (habsent : fs (home ++ "/.uhc.json") = none) :
    Load home fs = .ok none ∧ Remove home fs = .ok fs := by
  constructor
  · unfold Load Location
    rw [if_neg hhome]
    dsimp only
    rw [habsent]
  · unfold Remove Location
    rw [if_neg hhome]
    dsimp only
    rw [habsent]

/-- C9 witness: the empty store loads as no record and removes without
error. -/
theorem C9_missing_file_not_an_error_witness :
    Load "h" (fun _ => none) = .ok none ∧
    Remove "h" (fun _ => none) = .ok (fun _ => none) :=
  C9_missing_file_not_an_error "h" (fun _ => none) (by simp) rfl

end Uhc
